import Mathlib

/-!
Verification of the `GanttPrototype` activity store and chart renderer
(`gantt_prototype.py`).  The store is a pandas DataFrame with columns
ID, Nome_Attività, Data_Inizio, Data_Fine, Persona_Riferimento, Stato;
here it is embedded as a list of records.  Dates are embedded as
proleptic-Gregorian day numbers (an `Int`), so `timedelta(days = n)`
becomes integer addition and `pd.to_datetime` on an ISO `YYYY-MM-DD`
string becomes an executable civil-date-to-day-number conversion.
Python prints are modelled as returned lists of log strings, and the
image/spreadsheet artifacts as structured data values.
-/

namespace Gantt

/-- A dynamic cell/argument value, standing in for the Python values that
flow into the DataFrame: ints, strings, and (parsed) datetimes. -/
inductive Value where
  | int (n : Int)
  | str (s : String)
  | date (d : Int)
deriving DecidableEq

/-- Numeric view of a value, used where the program stores it in a numeric
column (ID, or a date column measured in day numbers).  A string in a
numeric column does not occur in any run the claims exercise. -/
def Value.asInt : Value → Int
  | .int n => n
  | .date d => d
  | .str _ => 0

/-- String view of a value, used where the program stores it in a text
column. -/
def Value.asStr : Value → String
  | .str s => s
  | .int n => toString n
  | .date d => toString d

/-- Is the year a Gregorian leap year. -/
def isLeap (y : Nat) : Bool :=
  (y % 4 == 0 && y % 100 != 0) || y % 400 == 0

/-- Cumulative day count before month `m` (1..12) in a non-leap year. -/
def daysBeforeMonth (m : Nat) : Nat :=
  [0, 0, 31, 59, 90, 120, 151, 181, 212, 243, 273, 304, 334].getD m 0

/-- Proleptic-Gregorian day number of the civil date y-m-d
(day 1 = 0001-01-01).  This is the embedding of a pandas timestamp at
day granularity: differences and day offsets agree with `timedelta`. -/
def dateToDays (y m d : Nat) : Nat :=
  365 * (y - 1) + (y - 1) / 4 - (y - 1) / 100 + (y - 1) / 400
    + daysBeforeMonth m + (if 2 < m && isLeap y then 1 else 0) + d

/-- Accumulate a decimal digit string into a number. -/
def digitsToNat : List Char → Nat → Nat
  | [], acc => acc
  | c :: cs, acc => digitsToNat cs (acc * 10 + (c.toNat - 48))

/-- Split a character list on the dash character (accumulator holds the
current segment reversed). -/
def splitOnDash : List Char → List Char → List (List Char)
  | [], cur => [cur.reverse]
  | c :: rest, cur =>
      if c = '-' then cur.reverse :: splitOnDash rest []
      else splitOnDash rest (c :: cur)

/-- Embedding of `pd.to_datetime` on an ISO `YYYY-MM-DD` string (the
format the program documents for its date arguments): the day number of
the named civil date. -/
def parseDate (s : String) : Int :=
  match splitOnDash s.toList [] with
  | [ys, ms, ds] => (dateToDays (digitsToNat ys 0) (digitsToNat ms 0) (digitsToNat ds 0) : Int)
  | _ => 0

/-- The `isinstance(x, str)` conversion applied by `add_activity` and
`update_activity`: strings are parsed to datetimes, other values pass
through. -/
def normDate : Value → Value
  | .str s => .date (parseDate s)
  | v => v

/-- One row of the activity DataFrame, with each cell typed as the
program uses it (ID numeric, dates as day numbers, the rest text). -/
structure Record where
  ID : Int
  nome : String
  data_inizio : Int
  data_fine : Int
  persona : String
  stato : String
deriving DecidableEq

/-- The store: `self.df`, an ordered list of rows. -/
structure GanttPrototype where
  df : List Record
deriving DecidableEq

/-- The fixed column list of the DataFrame (`self.df.columns`). -/
def columns : List String :=
  ["ID", "Nome_Attività", "Data_Inizio", "Data_Fine", "Persona_Riferimento", "Stato"]

/-- Column maximum (`series.max()` of pandas, on a nonempty column). -/
def colMax : List Int → Int
  | [] => 0
  | [x] => x
  | x :: y :: t => max x (colMax (y :: t))

/-- Column minimum (`series.min()` of pandas, on a nonempty column). -/
def colMin : List Int → Int
  | [] => 0
  | [x] => x
  | x :: y :: t => min x (colMin (y :: t))

/-- Embedding of `add_activity`: normalize string dates, compute the new
id as 1 on an empty store and column-max + 1 otherwise, append the row,
and return the new id together with the new store. -/
def add_activity (s : GanttPrototype) (nome : String) (data_inizio data_fine : Value)
    (persona : String) (stato : String) : Int × GanttPrototype :=
  let di := (normDate data_inizio).asInt
  let dfn := (normDate data_fine).asInt
  let new_id := if s.df.length = 0 then 1 else colMax (s.df.map Record.ID) + 1
  (new_id, ⟨s.df ++ [⟨new_id, nome, di, dfn, persona, stato⟩]⟩)

/-- The not-found log line printed by `update_activity` and
`delete_activity`. -/
def notFoundMsg (id : Int) : String :=
  "Errore: Attività con ID " ++ toString id ++ " non trovata."

/-- The unknown-field warning line printed by `update_activity`. -/
def warnMsg (k : String) : String :=
  "Avviso: Campo " ++ k ++ " non presente nel DataFrame."

/-- Write one named cell of a row (`df.loc[mask, key] = value`).  The
value is coerced to the column type it lands in. -/
def setField (r : Record) (key : String) (v : Value) : Record :=
  if key = "ID" then { r with ID := v.asInt }
  else if key = "Nome_Attività" then { r with nome := v.asStr }
  else if key = "Data_Inizio" then { r with data_inizio := v.asInt }
  else if key = "Data_Fine" then { r with data_fine := v.asInt }
  else if key = "Persona_Riferimento" then { r with persona := v.asStr }
  else if key = "Stato" then { r with stato := v.asStr }
  else r

/-- The per-key conversion `update_activity` applies to its kwargs before
the update loop: string values under the two date keys are parsed. -/
def convertDateKw (kv : String × Value) : String × Value :=
  if kv.1 = "Data_Inizio" ∨ kv.1 = "Data_Fine" then (kv.1, normDate kv.2) else kv

/-- The update loop of `update_activity`: for each key in order, if it is
a recognized column, assign the value on every row whose current ID
matches (the mask `df['ID'] == id` is recomputed on each iteration, as in
the source); otherwise emit a warning and continue.  Returns the updated
rows and the warnings in order. -/
def applyKwargs (df : List Record) (id : Int) :
    List (String × Value) → List Record × List String
  | [] => (df, [])
  | kv :: rest =>
      if kv.1 ∈ columns then
        applyKwargs (df.map (fun r => if r.ID = id then setField r kv.1 kv.2 else r)) id rest
      else
        let out := applyKwargs df id rest
        (out.1, warnMsg kv.1 :: out.2)

/-- Embedding of `update_activity`: fail (false, log) when the id is not
in the ID column; otherwise convert string dates and run the update
loop, returning true. -/
def update_activity (s : GanttPrototype) (id : Int) (kwargs : List (String × Value)) :
    GanttPrototype × Bool × List String :=
  if id ∉ s.df.map Record.ID then (s, false, [notFoundMsg id])
  else
    let out := applyKwargs s.df id (kwargs.map convertDateKw)
    (⟨out.1⟩, true, out.2)

/-- Embedding of `delete_activity`: fail (false, log) when the id is not
in the ID column; otherwise keep exactly the rows whose ID differs
(`self.df = self.df[self.df['ID'] != id]`). -/
def delete_activity (s : GanttPrototype) (id : Int) :
    GanttPrototype × Bool × List String :=
  if id ∉ s.df.map Record.ID then (s, false, [notFoundMsg id])
  else (⟨s.df.filter (fun r => r.ID != id)⟩, true, [])

/-- One horizontal bar the renderer draws (`ax.barh` plus the `ax.text`
annotation of the person just past the bar). -/
structure Bar where
  label : String
  left : Int
  width : Int
  color : String
  text : String
  textX : Int
deriving DecidableEq

/-- The figure `generate_gantt` builds: title, x-axis limits (day
numbers) and the bars in drawing order. -/
structure Chart where
  title : String
  xlim_lo : Int
  xlim_hi : Int
  bars : List Bar
deriving DecidableEq

/-- What a call to `generate_gantt` produces: the returned value (the
output path, or none on the empty case), the files written, the figure
data, and the printed lines. -/
structure RenderOutput where
  result : Option String
  written : List String
  chart : Option Chart
  logs : List String
deriving DecidableEq

/-- The fixed status-to-color table `colori_stati`. -/
def colori_stati : List (String × String) :=
  [("Non iniziato", "lightgrey"), ("In corso", "lightblue"),
   ("Completato", "lightgreen"), ("In ritardo", "salmon"),
   ("In pausa", "yellow")]

/-- Bar color for a status: `colori_stati.get(stato, 'lightgrey')`. -/
def colorOf (stato : String) : String :=
  ((colori_stati.find? (fun kv => kv.1 == stato)).map Prod.snd).getD "lightgrey"

/-- Ordered insertion by start date. -/
def insertByStart (r : Record) : List Record → List Record
  | [] => [r]
  | x :: xs =>
      if r.data_inizio ≤ x.data_inizio then r :: x :: xs
      else x :: insertByStart r xs

/-- Embedding of `df_filtered.sort_values('Data_Inizio')`: the rows in
nondecreasing order of start date. -/
def sortByStart : List Record → List Record
  | [] => []
  | r :: rs => insertByStart r (sortByStart rs)

/-- The filtering step at the top of `generate_gantt`.  The Python guard
is `if filter_person:`, which is falsy both for `None` and for the empty
string, so both leave the DataFrame unfiltered. -/
def filteredDf (s : GanttPrototype) (filter_person : Option String) : List Record :=
  let p := filter_person.getD ""
  if p = "" then s.df else s.df.filter (fun r => r.persona == p)

/-- Embedding of `generate_gantt`: filter by person (truthy filter only),
return none with a notice and write nothing when the filtered set is
empty; otherwise sort by start date, draw one bar per row with the
status color and the person annotation at end + 1 day, set the x limits
to min start − 3 days and max end + 15 days (computed over the filtered
set), save the figure and return the path. -/
def generate_gantt (s : GanttPrototype) (output_file : String)
    (filter_person : Option String) : RenderOutput :=
  let p := filter_person.getD ""
  let df_filtered := filteredDf s filter_person
  let title_suffix := if p = "" then "" else " - " ++ p
  if df_filtered.length = 0 then
    { result := none, written := [], chart := none,
      logs := ["Nessuna attività da visualizzare nel diagramma di Gantt."] }
  else
    let sorted := sortByStart df_filtered
    let bars := sorted.map (fun t =>
      { label := t.nome, left := t.data_inizio,
        width := t.data_fine - t.data_inizio,
        color := colorOf t.stato,
        text := t.persona, textX := t.data_fine + 1 : Bar })
    { result := some output_file,
      written := [output_file],
      chart := some
        { title := "Diagramma di Gantt" ++ title_suffix,
          xlim_lo := colMin (df_filtered.map Record.data_inizio) - 3,
          xlim_hi := colMax (df_filtered.map Record.data_fine) + 15,
          bars := bars },
      logs := ["Diagramma di Gantt salvato in: " ++ output_file] }

/-- One spreadsheet row: the cells of a record in column order. -/
def Row : Type := List Value
deriving instance DecidableEq for Row

/-- The spreadsheet artifact: named sheets of rows. -/
def ExcelFile : Type := List (String × List Row)
deriving instance DecidableEq for ExcelFile

/-- Serialize a record to its spreadsheet row (one cell per column, in
column order, dates as plain dates). -/
def recordToRow (r : Record) : Row :=
  [.int r.ID, .str r.nome, .date r.data_inizio, .date r.data_fine,
   .str r.persona, .str r.stato]

/-- Parse a spreadsheet row back into a record; fails on a row whose
cells do not fit the column types. -/
def rowToRecord : Row → Option Record
  | [.int i, .str n, .date a, .date b, .str p, .str st] => some ⟨i, n, a, b, p, st⟩
  | _ => none

/-- Embedding of `save_to_excel`: a workbook with the data on sheet
"Attività" and an empty sheet "GANTT", plus the returned path and the
printed line. -/
def save_to_excel (s : GanttPrototype) (file_path : String) :
    ExcelFile × String × List String :=
  ([("Attività", s.df.map recordToRow), ("GANTT", [])],
   file_path, ["File salvato: " ++ file_path])

/-- Look up a sheet by name (`pd.read_excel(file, sheet_name = ...)`). -/
def readSheet (f : ExcelFile) (sheet : String) : Option (List Row) :=
  (List.find? (fun kv => kv.1 == sheet) f).map Prod.snd

/-- Parse every row of a sheet, failing if any row does not fit. -/
def parseRows : List Row → Option (List Record)
  | [] => some []
  | row :: rest =>
      match rowToRecord row, parseRows rest with
      | some r, some t => some (r :: t)
      | _, _ => none

/-- Embedding of `GanttPrototype.__init__`: with no file (or a file that
cannot be read or parsed) start from the empty DataFrame, otherwise load
the rows of sheet "Attività". -/
def initStore (excel_file : Option ExcelFile) : GanttPrototype :=
  match excel_file with
  | none => ⟨[]⟩
  | some wb =>
      match readSheet wb "Attività" with
      | none => ⟨[]⟩
      | some rows =>
          match parseRows rows with
          | some recs => ⟨recs⟩
          | none => ⟨[]⟩

/-- A two-record store (ids 1 and 2) used as the concrete witness input,
built through `add_activity` from the empty store, mirroring the
example rows of the source. -/
def demo2 : GanttPrototype :=
  (add_activity
    (add_activity ⟨[]⟩ "Sviluppo frontend" (.str "2024-05-01") (.str "2024-05-15")
      "Marco" "In corso").2
    "Testing" (.str "2024-06-01") (.str "2024-06-15") "Marco" "Non iniziato").2

/-! ### Helper lemmas -/

/-- Every entry of a column is bounded by the column maximum. -/
theorem mem_le_colMax : ∀ (l : List Int), ∀ x ∈ l, x ≤ colMax l
  | [] => by intro x hx; cases hx
  | [y] => by
      intro x hx
      rcases List.mem_singleton.mp hx with rfl
      exact le_refl x
  | y :: z :: t => by
      intro x hx
      rcases List.mem_cons.mp hx with rfl | h2
      · exact le_max_left _ _
      · exact le_trans (mem_le_colMax (z :: t) x h2) (le_max_right _ _)

/-- Writing any column other than ID leaves the ID cell unchanged. -/
theorem setField_ID_eq (r : Record) (k : String) (v : Value) (h : k ≠ "ID") :
    (setField r k v).ID = r.ID := by
  unfold setField
  rw [if_neg h]
  repeat' split
  all_goals rfl

/-- The kwarg date conversion never changes the key. -/
theorem convertDateKw_fst (kv : String × Value) : (convertDateKw kv).1 = kv.1 := by
  unfold convertDateKw
  split <;> rfl

/-- The update loop leaves the ID column untouched when none of the
supplied keys is the ID column. -/
theorem applyKwargs_map_ID (id : Int) :
    ∀ (kw : List (String × Value)) (df : List Record),
      (∀ kv ∈ kw, kv.1 ≠ "ID") →
      (applyKwargs df id kw).1.map Record.ID = df.map Record.ID := by
  intro kw
  induction kw with
  | nil => intro df _; rfl
  | cons kv rest ih =>
      intro df h
      have hkv : kv.1 ≠ "ID" := h kv (List.mem_cons_self _ _)
      have hrest : ∀ kv2 ∈ rest, kv2.1 ≠ "ID" :=
        fun kv2 h2 => h kv2 (List.mem_cons_of_mem _ h2)
      by_cases hc : kv.1 ∈ columns
      · simp only [applyKwargs, if_pos hc]
        rw [ih _ hrest, List.map_map]
        apply List.map_congr_left
        intro r _
        by_cases hr : r.ID = id
        · simp only [Function.comp_apply, if_pos hr, setField_ID_eq r kv.1 kv.2 hkv]
        · simp only [Function.comp_apply, if_neg hr]
      · simp only [applyKwargs, if_neg hc]
        exact ih _ hrest

/-- The warnings the update loop emits are exactly the unrecognized keys,
in order. -/
theorem applyKwargs_warnings (id : Int) :
    ∀ (kw : List (String × Value)) (df : List Record),
      (applyKwargs df id kw).2
        = ((kw.map Prod.fst).filter (fun k => !(decide (k ∈ columns)))).map warnMsg := by
  intro kw
  induction kw with
  | nil => intro _; rfl
  | cons kv rest ih =>
      intro df
      by_cases hc : kv.1 ∈ columns
      · simp only [applyKwargs, if_pos hc, List.map_cons, List.filter_cons]
        rw [ih]
        simp [hc]
      · simp only [applyKwargs, if_neg hc, List.map_cons, List.filter_cons]
        rw [ih]
        simp [hc]

/-- The rows produced by the update loop depend only on the recognized
keys: dropping the unrecognized ones changes nothing. -/
theorem applyKwargs_store_filter (id : Int) :
    ∀ (kw : List (String × Value)) (df : List Record),
      (applyKwargs df id kw).1
        = (applyKwargs df id (kw.filter (fun kv => decide (kv.1 ∈ columns)))).1 := by
  intro kw
  induction kw with
  | nil => intro _; rfl
  | cons kv rest ih =>
      intro df
      rw [List.filter_cons]
      by_cases hc : kv.1 ∈ columns
      · simp only [hc, decide_True, if_pos, applyKwargs]
        exact ih _
      · simp only [hc, decide_False, Bool.false_eq_true, if_neg, applyKwargs, if_neg hc]
        exact ih _

/-- In a store with pairwise distinct ids, the row with a present id
splits the list, and filtering that id out removes exactly that row. -/
theorem nodup_filter_ne_decomp (id : Int) :
    ∀ (l : List Record), (l.map Record.ID).Nodup → id ∈ l.map Record.ID →
      ∃ l1 r l2, l = l1 ++ r :: l2 ∧ r.ID = id
        ∧ l.filter (fun x => x.ID != id) = l1 ++ l2 := by
  intro l
  induction l with
  | nil => intro _ hm; simp at hm
  | cons a t ih =>
      intro hn hm
      rw [List.map_cons, List.nodup_cons] at hn
      by_cases ha : a.ID = id
      · refine ⟨[], a, t, by simp, ha, ?_⟩
        rw [List.filter_cons, if_neg (by simp [ha])]
        simp only [List.nil_append]
        apply List.filter_eq_self.mpr
        intro b hb
        have : b.ID ≠ id := by
          intro hbid
          exact hn.1 (by rw [ha, ← hbid]; exact List.mem_map_of_mem Record.ID hb)
        simpa using this
      · have hmt : id ∈ t.map Record.ID := by
          rcases List.mem_cons.mp hm with h1 | h2
          · exact absurd h1.symm ha
          · exact h2
        obtain ⟨l1, r, l2, h1, h2, h3⟩ := ih hn.2 hmt
        refine ⟨a :: l1, r, l2, by rw [h1]; rfl, h2, ?_⟩
        rw [List.filter_cons, if_pos (by simpa using ha), h3]
        rfl

/-- Filtering kwargs to the recognized columns commutes with the date
conversion (which never changes a key). -/
theorem filter_columns_map_convert :
    ∀ (kw : List (String × Value)),
      (kw.map convertDateKw).filter (fun kv => decide (kv.1 ∈ columns))
        = (kw.filter (fun kv => decide (kv.1 ∈ columns))).map convertDateKw := by
  intro kw
  induction kw with
  | nil => rfl
  | cons kv rest ih =>
      rw [List.map_cons, List.filter_cons, List.filter_cons, convertDateKw_fst]
      by_cases hc : kv.1 ∈ columns
      · simp [hc, ih]
      · simp [hc, ih]

/-- Parsing a serialized row gives back the row's record. -/
theorem rowToRecord_recordToRow (r : Record) :
    rowToRecord (recordToRow r) = some r := rfl

/-- Serialization then parsing of the data sheet is the identity. -/
theorem parseRows_recordToRow (l : List Record) :
    parseRows (l.map recordToRow) = some l := by
  induction l with
  | nil => rfl
  | cons r t ih =>
      simp only [List.map_cons, parseRows, ih, rowToRecord_recordToRow]

/-! ### Claim theorems -/

/-- C1: `add_activity` assigns the new id as 1 on an empty store and as
the maximum existing id plus one otherwise, returns it, appends the new
row with it, and the new id is strictly greater than every live id (so
consecutive adds give strictly increasing ids); in particular after
deleting the record with the highest id, the next add still derives its
id from the id column maximum of the current (post-delete) store, not
from a record count. -/
theorem add_assigns_id_from_max (s : GanttPrototype) (nome : String)
    (d1 d2 : Value) (p st : String) :
    (add_activity s nome d1 d2 p st).1
        = (if s.df.length = 0 then 1 else colMax (s.df.map Record.ID) + 1)
    ∧ (∀ r ∈ s.df, r.ID < (add_activity s nome d1 d2 p st).1)
    ∧ (add_activity s nome d1 d2 p st).2.df
        = s.df ++ [⟨(add_activity s nome d1 d2 p st).1, nome,
            (normDate d1).asInt, (normDate d2).asInt, p, st⟩]
    ∧ (s.df.length ≠ 0 →
        (add_activity (delete_activity s (colMax (s.df.map Record.ID))).1
            nome d1 d2 p st).1
          = (if (delete_activity s (colMax (s.df.map Record.ID))).1.df.length = 0
             then 1
             else colMax
                ((delete_activity s (colMax (s.df.map Record.ID))).1.df.map Record.ID)
                + 1)) := by
  refine ⟨rfl, ?_, rfl, fun _ => rfl⟩
  intro r hr
  show r.ID < (if s.df.length = 0 then 1 else colMax (s.df.map Record.ID) + 1)
  have h0 : ¬ s.df.length = 0 := by
    intro h
    rw [List.length_eq_zero] at h
    rw [h] at hr
    cases hr
  rw [if_neg h0]
  have hle : r.ID ≤ colMax (s.df.map Record.ID) :=
    mem_le_colMax _ r.ID (List.mem_map_of_mem Record.ID hr)
  omega

/-- C1 witness: on the two-record demo store (ids 1, 2) the strict bound
holds at the record with id 2, and after deleting the record with the
highest id the next add still equals the current column maximum plus
one. -/
theorem add_assigns_id_from_max_witness :
    ((⟨2, "Testing", parseDate "2024-06-01", parseDate "2024-06-15", "Marco",
        "Non iniziato"⟩ : Record) ∈ demo2.df
      ∧ (2 : Int) < (add_activity demo2 "X" (Value.date 0) (Value.date 1) "P" "In corso").1)
    ∧ demo2.df.length ≠ 0
    ∧ (add_activity (delete_activity demo2 (colMax (demo2.df.map Record.ID))).1
          "X" (Value.date 0) (Value.date 1) "P" "In corso").1
        = (if (delete_activity demo2 (colMax (demo2.df.map Record.ID))).1.df.length = 0
           then 1
           else colMax
              ((delete_activity demo2 (colMax (demo2.df.map Record.ID))).1.df.map Record.ID)
              + 1) :=
  ⟨⟨by decide,
    (add_assigns_id_from_max demo2 "X" (Value.date 0) (Value.date 1) "P" "In corso").2.1
      ⟨2, "Testing", parseDate "2024-06-01", parseDate "2024-06-15", "Marco", "Non iniziato"⟩
      (by decide)⟩,
   by decide,
   (add_assigns_id_from_max demo2 "X" (Value.date 0) (Value.date 1) "P" "In corso").2.2.2
     (by decide)⟩

/-- C3: `update_activity` on an id that is not in the ID column returns
false together with the not-found log line and leaves the store (every
record) unchanged. -/
theorem update_missing_id_noop (s : GanttPrototype) (id : Int)
    (kwargs : List (String × Value)) (h : id ∉ s.df.map Record.ID) :
    update_activity s id kwargs = (s, false, [notFoundMsg id]) := by
  unfold update_activity
  rw [if_pos h]

/-- C3 witness: updating id 5 on the two-record demo store (ids 1, 2)
fails and changes nothing. -/
theorem update_missing_id_noop_witness :
    (5 : Int) ∉ demo2.df.map Record.ID
    ∧ update_activity demo2 5 [("Stato", Value.str "Completato")]
        = (demo2, false, [notFoundMsg 5]) :=
  ⟨by decide, update_missing_id_noop demo2 5 [("Stato", Value.str "Completato")] (by decide)⟩

/-- C4: `delete_activity` on an absent id returns false with the
not-found log line and leaves the store unchanged; on a present id it
returns true and keeps exactly the rows with a different id, in order —
so on a store with pairwise distinct ids it removes exactly the one
record with that id and leaves every other record unchanged. -/
theorem delete_spec (s : GanttPrototype) (id : Int) :
    (id ∉ s.df.map Record.ID → delete_activity s id = (s, false, [notFoundMsg id]))
    ∧ (id ∈ s.df.map Record.ID →
        (delete_activity s id).2.1 = true
        ∧ (delete_activity s id).1.df = s.df.filter (fun r => r.ID != id)
        ∧ ((s.df.map Record.ID).Nodup →
            ∃ l1 r l2, s.df = l1 ++ r :: l2 ∧ r.ID = id
              ∧ (delete_activity s id).1.df = l1 ++ l2)) := by
  constructor
  · intro h
    unfold delete_activity
    rw [if_pos h]
  · intro h
    have heq : (delete_activity s id).1.df = s.df.filter (fun r => r.ID != id) := by
      unfold delete_activity
      rw [if_neg (not_not_intro h)]
    refine ⟨?_, heq, fun hn => ?_⟩
    · unfold delete_activity
      rw [if_neg (not_not_intro h)]
    · obtain ⟨l1, r, l2, h1, h2, h3⟩ := nodup_filter_ne_decomp id s.df hn h
      exact ⟨l1, r, l2, h1, h2, heq.trans h3⟩

/-- C4 witness: deleting id 2 from the two-record demo store succeeds,
keeps exactly the other record, and the split decomposition exists. -/
theorem delete_spec_witness :
    (2 : Int) ∈ demo2.df.map Record.ID
    ∧ ((delete_activity demo2 2).2.1 = true
       ∧ (delete_activity demo2 2).1.df = demo2.df.filter (fun r => r.ID != 2)
       ∧ ((demo2.df.map Record.ID).Nodup →
            ∃ l1 r l2, demo2.df = l1 ++ r :: l2 ∧ r.ID = 2
              ∧ (delete_activity demo2 2).1.df = l1 ++ l2)) :=
  ⟨by decide, (delete_spec demo2 2).2 (by decide)⟩

/-- C5: `add_activity` performs no date-order validation: even with an
end date at or before the start date it still computes and returns the
new id and appends the row exactly as given (after normalizing string
dates). -/
theorem add_no_date_order_validation (s : GanttPrototype) (nome : String)
    (d1 d2 : Value) (p st : String)
    (_h : (normDate d2).asInt ≤ (normDate d1).asInt) :
    (add_activity s nome d1 d2 p st).1
        = (if s.df.length = 0 then 1 else colMax (s.df.map Record.ID) + 1)
    ∧ (add_activity s nome d1 d2 p st).2.df
        = s.df ++ [⟨(add_activity s nome d1 d2 p st).1, nome,
            (normDate d1).asInt, (normDate d2).asInt, p, st⟩] :=
  ⟨rfl, rfl⟩

/-- C5 witness: adding an activity whose end date 2024-05-01 lies before
its start date 2024-05-10 still succeeds and appends the row. -/
theorem add_no_date_order_validation_witness :
    (normDate (Value.str "2024-05-01")).asInt ≤ (normDate (Value.str "2024-05-10")).asInt
    ∧ ((add_activity demo2 "Inverted" (Value.str "2024-05-10") (Value.str "2024-05-01")
          "P" "In corso").1
        = (if demo2.df.length = 0 then 1 else colMax (demo2.df.map Record.ID) + 1)
       ∧ (add_activity demo2 "Inverted" (Value.str "2024-05-10") (Value.str "2024-05-01")
            "P" "In corso").2.df
          = demo2.df ++ [⟨(add_activity demo2 "Inverted" (Value.str "2024-05-10")
                (Value.str "2024-05-01") "P" "In corso").1, "Inverted",
              (normDate (Value.str "2024-05-10")).asInt,
              (normDate (Value.str "2024-05-01")).asInt, "P", "In corso"⟩]) :=
  ⟨by decide,
   add_no_date_order_validation demo2 "Inverted" (Value.str "2024-05-10")
     (Value.str "2024-05-01") "P" "In corso" (by decide)⟩

/-- C2 counterexample: id uniqueness is not preserved by every update —
the update loop writes any recognized column, including ID, so on the
two-record store with ids 1 and 2 the single call
`update_activity 1 [("ID", 2)]` produces two live records with id 2. -/
theorem update_id_field_breaks_uniqueness :
    (demo2.df.map Record.ID).Nodup
    ∧ ¬ (((update_activity demo2 1 [("ID", Value.int 2)]).1.df.map Record.ID).Nodup)
    ∧ (update_activity demo2 1 [("ID", Value.int 2)]).1.df.map Record.ID = [2, 2] := by
  refine ⟨by decide, ?_, by decide⟩
  decide

/-- C2 (amended): on a store with pairwise distinct ids, uniqueness of
the id column is preserved by `add_activity`, by `delete_activity`, and
by any `update_activity` whose supplied field names do not include the
ID column; an update naming the ID column can break it. -/
theorem store_ops_preserve_unique_ids (s : GanttPrototype) (nome : String)
    (d1 d2 : Value) (p st : String) (id : Int) (kwargs : List (String × Value))
    (h : (s.df.map Record.ID).Nodup) :
    ((add_activity s nome d1 d2 p st).2.df.map Record.ID).Nodup
    ∧ ((delete_activity s id).1.df.map Record.ID).Nodup
    ∧ ((∀ kv ∈ kwargs, kv.1 ≠ "ID") →
        ((update_activity s id kwargs).1.df.map Record.ID).Nodup) := by
  refine ⟨?_, ?_, ?_⟩
  · have hdf : (add_activity s nome d1 d2 p st).2.df
        = s.df ++ [⟨(add_activity s nome d1 d2 p st).1, nome,
            (normDate d1).asInt, (normDate d2).asInt, p, st⟩] := rfl
    rw [hdf, List.map_append]
    refine List.nodup_append.mpr ⟨h, List.nodup_singleton _, ?_⟩
    intro a ha hb
    rw [List.map_singleton, List.mem_singleton] at hb
    by_cases h0 : s.df.length = 0
    · rw [List.length_eq_zero] at h0
      rw [h0] at ha
      cases ha
    · have hle : a ≤ colMax (s.df.map Record.ID) := mem_le_colMax _ a ha
      have hid : (add_activity s nome d1 d2 p st).1
          = colMax (s.df.map Record.ID) + 1 := by
        show (if s.df.length = 0 then 1 else colMax (s.df.map Record.ID) + 1) = _
        rw [if_neg h0]
      have hb2 : a = (add_activity s nome d1 d2 p st).1 := hb
      rw [hid] at hb2
      omega
  · by_cases hd : id ∈ s.df.map Record.ID
    · have heq : (delete_activity s id).1.df = s.df.filter (fun r => r.ID != id) := by
        unfold delete_activity
        rw [if_neg (not_not_intro hd)]
      rw [heq]
      exact h.sublist (List.Sublist.map Record.ID (List.filter_sublist s.df))
    · have heq : (delete_activity s id).1 = s := by
        unfold delete_activity
        rw [if_pos hd]
      rw [heq]
      exact h
  · intro hknone
    by_cases hu : id ∈ s.df.map Record.ID
    · have heq : (update_activity s id kwargs).1.df
          = (applyKwargs s.df id (kwargs.map convertDateKw)).1 := by
        unfold update_activity
        rw [if_neg (not_not_intro hu)]
      rw [heq, applyKwargs_map_ID]
      · exact h
      · intro kv hkv
        rcases List.mem_map.mp hkv with ⟨kv0, hkv0, rfl⟩
        rw [convertDateKw_fst]
        exact hknone kv0 hkv0
    · have heq : (update_activity s id kwargs).1 = s := by
        unfold update_activity
        rw [if_pos hu]
      rw [heq]
      exact h

/-- C2 witness: on the two-record demo store (distinct ids 1 and 2) an
add, a delete of id 1, and an update of the Stato field all preserve id
uniqueness. -/
theorem store_ops_preserve_unique_ids_witness :
    (demo2.df.map Record.ID).Nodup
    ∧ (((add_activity demo2 "X" (Value.date 0) (Value.date 1) "P"
            "In corso").2.df.map Record.ID).Nodup
       ∧ ((delete_activity demo2 1).1.df.map Record.ID).Nodup
       ∧ ((∀ kv ∈ [("Stato", Value.str "Completato")], kv.1 ≠ "ID") →
            ((update_activity demo2 1
                [("Stato", Value.str "Completato")]).1.df.map Record.ID).Nodup)) :=
  ⟨by decide,
   store_ops_preserve_unique_ids demo2 "X" (Value.date 0) (Value.date 1) "P" "In corso"
     1 [("Stato", Value.str "Completato")] (by decide)⟩

/-- C6: on a present id, `update_activity` returns true, warns (in
order) on exactly the unrecognized field names, and the resulting store
is the same as if only the recognized fields had been supplied — every
recognized field is applied and every unrecognized one is ignored
without failing. -/
theorem update_mixed_fields (s : GanttPrototype) (id : Int)
    (kwargs : List (String × Value)) (h : id ∈ s.df.map Record.ID) :
    (update_activity s id kwargs).2.1 = true
    ∧ (update_activity s id kwargs).2.2
        = ((kwargs.map Prod.fst).filter (fun k => !(decide (k ∈ columns)))).map warnMsg
    ∧ (update_activity s id kwargs).1
        = (update_activity s id
            (kwargs.filter (fun kv => decide (kv.1 ∈ columns)))).1 := by
  have hne := not_not_intro h
  refine ⟨?_, ?_, ?_⟩
  · unfold update_activity
    rw [if_neg hne]
  · have heq : (update_activity s id kwargs).2.2
        = (applyKwargs s.df id (kwargs.map convertDateKw)).2 := by
      unfold update_activity
      rw [if_neg hne]
    rw [heq, applyKwargs_warnings]
    have hkeys : (kwargs.map convertDateKw).map Prod.fst = kwargs.map Prod.fst := by
      rw [List.map_map]
      apply List.map_congr_left
      intro kv _
      exact convertDateKw_fst kv
    rw [hkeys]
  · have heq1 : (update_activity s id kwargs).1
        = ⟨(applyKwargs s.df id (kwargs.map convertDateKw)).1⟩ := by
      unfold update_activity
      rw [if_neg hne]
    have heq2 : (update_activity s id
          (kwargs.filter (fun kv => decide (kv.1 ∈ columns)))).1
        = ⟨(applyKwargs s.df id
            ((kwargs.filter (fun kv => decide (kv.1 ∈ columns))).map convertDateKw)).1⟩ := by
      unfold update_activity
      rw [if_neg hne]
    rw [heq1, heq2, applyKwargs_store_filter, filter_columns_map_convert]

/-- C6 witness: updating id 1 with a recognized field (Stato) and an
unrecognized one (Priorita) succeeds, warns exactly on the unrecognized
name, and the store matches the update restricted to the recognized
field. -/
theorem update_mixed_fields_witness :
    (1 : Int) ∈ demo2.df.map Record.ID
    ∧ ((update_activity demo2 1
          [("Stato", Value.str "Completato"), ("Priorita", Value.int 5)]).2.1 = true
       ∧ (update_activity demo2 1
            [("Stato", Value.str "Completato"), ("Priorita", Value.int 5)]).2.2
          = ((([("Stato", Value.str "Completato"),
                ("Priorita", Value.int 5)].map Prod.fst).filter
                (fun k => !(decide (k ∈ columns)))).map warnMsg)
       ∧ (update_activity demo2 1
            [("Stato", Value.str "Completato"), ("Priorita", Value.int 5)]).1
          = (update_activity demo2 1
              ([("Stato", Value.str "Completato"), ("Priorita", Value.int 5)].filter
                (fun kv => decide (kv.1 ∈ columns)))).1) :=
  ⟨by decide,
   update_mixed_fields demo2 1
     [("Stato", Value.str "Completato"), ("Priorita", Value.int 5)] (by decide)⟩

/-- C7: when the filtered activity set is empty (empty store, or a
truthy person filter matching no record), `generate_gantt` returns
none, writes no file, and prints the nothing-to-render notice. -/
theorem render_empty_set (s : GanttPrototype) (file : String) (fp : Option String)
    (h : filteredDf s fp = []) :
    (generate_gantt s file fp).result = none
    ∧ (generate_gantt s file fp).written = []
    ∧ (generate_gantt s file fp).chart = none
    ∧ (generate_gantt s file fp).logs
        = ["Nessuna attività da visualizzare nel diagramma di Gantt."] := by
  have hg : generate_gantt s file fp
      = { result := none, written := [], chart := none,
          logs := ["Nessuna attività da visualizzare nel diagramma di Gantt."] } := by
    unfold generate_gantt
    rw [h]
    rfl
  rw [hg]
  exact ⟨rfl, rfl, rfl, rfl⟩

/-- C7 witness: rendering the demo store filtered by a person with no
activities returns none, writes nothing, and logs the notice. -/
theorem render_empty_set_witness :
    filteredDf demo2 (some "Nobody") = []
    ∧ ((generate_gantt demo2 "g.png" (some "Nobody")).result = none
       ∧ (generate_gantt demo2 "g.png" (some "Nobody")).written = []
       ∧ (generate_gantt demo2 "g.png" (some "Nobody")).chart = none
       ∧ (generate_gantt demo2 "g.png" (some "Nobody")).logs
           = ["Nessuna attività da visualizzare nel diagramma di Gantt."]) :=
  ⟨by decide, render_empty_set demo2 "g.png" (some "Nobody") (by decide)⟩

/-- C8: on a nonempty rendered set, the x-axis limits of the produced
chart are the minimum start date minus 3 days and the maximum end date
plus 15 days, computed over the post-filter set. -/
theorem render_xaxis_range (s : GanttPrototype) (file : String) (fp : Option String)
    (h : filteredDf s fp ≠ []) :
    (generate_gantt s file fp).chart.map Chart.xlim_lo
        = some (colMin ((filteredDf s fp).map Record.data_inizio) - 3)
    ∧ (generate_gantt s file fp).chart.map Chart.xlim_hi
        = some (colMax ((filteredDf s fp).map Record.data_fine) + 15) := by
  have hl : ¬ (filteredDf s fp).length = 0 := by
    simpa [List.length_eq_zero] using h
  constructor
  · show ((if (filteredDf s fp).length = 0 then _ else _) :
        RenderOutput).chart.map Chart.xlim_lo = _
    rw [if_neg hl]
    rfl
  · show ((if (filteredDf s fp).length = 0 then _ else _) :
        RenderOutput).chart.map Chart.xlim_hi = _
    rw [if_neg hl]
    rfl

/-- C8 witness: on the demo store, whose activities span 2024-05-01 to
2024-06-15, the x-axis runs from 2024-04-28 to 2024-06-30. -/
theorem render_xaxis_range_witness :
    filteredDf demo2 none ≠ []
    ∧ ((generate_gantt demo2 "gantt_completo.png" none).chart.map Chart.xlim_lo
          = some (colMin ((filteredDf demo2 none).map Record.data_inizio) - 3)
       ∧ (generate_gantt demo2 "gantt_completo.png" none).chart.map Chart.xlim_hi
          = some (colMax ((filteredDf demo2 none).map Record.data_fine) + 15))
    ∧ (generate_gantt demo2 "gantt_completo.png" none).chart.map Chart.xlim_lo
        = some (parseDate "2024-04-28")
    ∧ (generate_gantt demo2 "gantt_completo.png" none).chart.map Chart.xlim_hi
        = some (parseDate "2024-06-30") :=
  ⟨by decide, render_xaxis_range demo2 "gantt_completo.png" none (by decide),
   by decide, by decide⟩

/-- C9: exporting all records to the spreadsheet artifact and building a
new store from that artifact reproduces exactly the same records — ids,
statuses, text fields and (normalized) dates included. -/
theorem excel_roundtrip (s : GanttPrototype) (file_path : String) :
    (initStore (some (save_to_excel s file_path).1)).df = s.df := by
  show (match parseRows (s.df.map recordToRow) with
    | some recs => (⟨recs⟩ : GanttPrototype)
    | none => (⟨[]⟩ : GanttPrototype)).df = s.df
  rw [parseRows_recordToRow]

/-- C10: because the Python guard tests the filter for truthiness, an
empty-string person filter is indistinguishable from passing no filter:
the whole render output is identical, no record is excluded, and the
chart title carries no person suffix. -/
theorem empty_filter_eq_no_filter (s : GanttPrototype) (file : String) :
    generate_gantt s file (some "") = generate_gantt s file none
    ∧ filteredDf s (some "") = s.df
    ∧ (s.df ≠ [] →
        (generate_gantt s file (some "")).chart.map Chart.title
          = some "Diagramma di Gantt") := by
  refine ⟨rfl, rfl, fun h => ?_⟩
  have hl : ¬ (filteredDf s (some "")).length = 0 := by
    simpa [filteredDf, List.length_eq_zero] using h
  show ((if (filteredDf s (some "")).length = 0 then _ else _) :
      RenderOutput).chart.map Chart.title = _
  rw [if_neg hl]
  rfl

/-- C10 witness: on the demo store the render with the empty-string
filter equals the render with no filter, and its title has no person
suffix. -/
theorem empty_filter_eq_no_filter_witness :
    generate_gantt demo2 "g2.png" (some "") = generate_gantt demo2 "g2.png" none
    ∧ demo2.df ≠ []
    ∧ (generate_gantt demo2 "g2.png" (some "")).chart.map Chart.title
        = some "Diagramma di Gantt" :=
  ⟨(empty_filter_eq_no_filter demo2 "g2.png").1, by decide,
   (empty_filter_eq_no_filter demo2 "g2.png").2.2 (by decide)⟩

end Gantt
